import Mathlib

/-!
Verification of the RF channel-planning core of `unifi-doctor`.

This file shallowly embeds, in Lean 4, the parts of the repository that the
verified claims are about:

* `src/unifi_doctor/analysis/rules.py` — channel tables, the 5 GHz overlap
  test `channels_overlap_5g`, and the 2.4 / 5 GHz channel-recommendation
  heuristics;
* `src/unifi_doctor/analysis/rf.py` — the RF analyzer `analyze` (findings and
  the channel plan);
* `src/unifi_doctor/topology/layout.py` — the spring-force layout engine
  `compute_layout`.

Embedding conventions:

* Python `int` is modelled as `Int`; Python floor division `//` is `Int.fdiv`
  and Python `%` (with a positive modulus) is `Int.emod`.
* Python `float` arithmetic is modelled over `ℚ` with float literals taken at
  their decimal value (`0.1 ↦ 1/10`, `1e-6 ↦ 1/1000000`); `math.sqrt` (which
  has no exact rational counterpart) is abstracted as an explicit function
  parameter, so every theorem about the layout engine holds for every
  interpretation of the square root.
* A Python function that can raise on its typed inputs is modelled with an
  `Option` result, `none` meaning an uncaught exception.
* Python `dict`s are modelled as insertion-ordered association lists with the
  exact `dict` update semantics (updating an existing key keeps its position,
  a fresh key is appended).
* Python `list` slicing (`l[a:b]`, including negative indices) is modelled by
  `pySlice`.
-/

set_option maxRecDepth 4000

/-! ## Python helpers -/

/-- Index conversion of Python slice bounds: a negative index counts from
the end, and everything is clamped to `[0, len]`. -/
def pySliceIdx (len : Nat) (i : Int) : Nat :=
  if i < 0 then (max 0 ((len : Int) + i)).toNat else (min i (len : Int)).toNat

/-- Python list slice `l[a:b]`. -/
def pySlice (l : List α) (a b : Int) : List α :=
  (l.take (pySliceIdx l.length b)).drop (pySliceIdx l.length a)

/-! ## Rule tables (`analysis/rules.py`) -/

def VALID_24G_CHANNELS : List Int := [1, 6, 11]

def NON_DFS_5G_CHANNELS : List Int := [36, 40, 44, 48, 149, 153, 157, 161, 165]

def DFS_5G_CHANNELS : List Int :=
  [52, 56, 60, 64, 100, 104, 108, 112, 116, 120, 124, 128, 132, 136, 140, 144]

/-- `ALL_5G_CHANNELS = NON_DFS_5G_CHANNELS | DFS_5G_CHANNELS`; the two sets
are disjoint, so the union is the concatenation. -/
def ALL_5G_CHANNELS : List Int := NON_DFS_5G_CHANNELS ++ DFS_5G_CHANNELS

def RECOMMENDED_24G_POWER : String := "low"

def RECOMMENDED_5G_WIDTH_DEFAULT : Int := 40

def RECOMMENDED_5G_INDOOR_POWER : String := "medium"

def RECOMMENDED_5G_OUTDOOR_POWER : String := "high"

def CHANNEL_UTIL_WARNING_PCT : Int := 50

def NOISE_FLOOR_WARNING_DBM : Int := -90

def MAX_NEIGHBORS_FOR_80MHZ : Int := 3

/-- `sorted(ALL_5G_CHANNELS)` — the `base_channels` local of
`channels_overlap_5g`. -/
def base_channels : List Int :=
  List.insertionSort (fun a b : Int => a ≤ b) ALL_5G_CHANNELS

/-- The local helper `channel_range(ch, width)` of `channels_overlap_5g`.
`none` models the `ZeroDivisionError` raised by `idx // n_channels` when
`n_channels = width // 20 == 0` (that division is not guarded by the
`try/except ValueError` around `base_channels.index(ch)`). -/
def channel_range (ch width : Int) : Option (List Int) :=
  match base_channels.findIdx? (fun c => c == ch) with
  | none => some [ch]
  | some idx =>
    let n_channels := width.fdiv 20
    if n_channels = 0 then none
    else
      let group_start := ((idx : Int).fdiv n_channels) * n_channels
      some (pySlice base_channels group_start (group_start + n_channels))

/-- `channels_overlap_5g(ch1, ch2, width1=40, width2=40)`: the two slot sets
overlap iff they intersect. `none` models a raised `ZeroDivisionError`. -/
def channels_overlap_5g (ch1 ch2 : Int) (width1 : Int := 40) (width2 : Int := 40) :
    Option Bool :=
  match channel_range ch1 width1 with
  | none => none
  | some r1 =>
    match channel_range ch2 width2 with
    | none => none
    | some r2 => some (r1.any (fun x => decide (x ∈ r2)))

def is_valid_24g_channel (ch : Int) : Bool := decide (ch ∈ VALID_24G_CHANNELS)

/-- `get_recommended_24g_channels(num_aps)`: cyclic `[1, 6, 11]` assignment;
`range(num_aps)` is empty for a non-positive count. -/
def get_recommended_24g_channels (num_aps : Int) : List Int :=
  (List.range num_aps.toNat).map (fun i => [1, 6, 11].getD (i % 3) 0)

/-- Sort key comparison for `candidates.sort(key=lambda c: (c in neighbor_channels, c))`:
lexicographic on `(Bool, Int)` with `False < True`. The key map is injective
on the (duplicate-free) candidate list, so any correct sort produces the same
list as Python's stable sort. -/
def sortLe (nb : List Int) (a b : Int) : Bool :=
  let ba := decide (a ∈ nb)
  let bb := decide (b ∈ nb)
  (!ba && bb) || (ba == bb && decide (a ≤ b))

/-- The 40 MHz pair of a candidate channel:
`{ch, ch+4}` if `ch % 8 == 0` else `{ch-4, ch}`. -/
def pairFor (ch : Int) : List Int :=
  if ch % 8 = 0 then [ch, ch + 4] else [ch - 4, ch]

/-- First selection loop of `get_recommended_5g_channels`: accept a candidate
whose 40 MHz pair does not meet `used_ranges`, and break as soon as
`len(selected) >= num_aps` right after an append. -/
def selectPhase (num_aps : Int) : List Int → List Int → List Int → List Int
  | [], selected, _ => selected
  | ch :: rest, selected, used =>
    if (pairFor ch).all (fun p => decide (p ∉ used)) then
      let selected' := selected ++ [ch]
      if num_aps ≤ (selected'.length : Int) then selected'
      else selectPhase num_aps rest selected' (used ++ pairFor ch)
    else selectPhase num_aps rest selected used

/-- The `while len(selected) < num_aps` fill loop: each pass appends the first
candidate not yet selected, or stops when there is none (`for … else: break`).
Each pass grows `selected` by one, so `num_aps.toNat` passes of fuel are
enough for the loop to reach its exit condition. -/
def fillPhase (num_aps : Int) (candidates : List Int) : Nat → List Int → List Int
  | 0, selected => selected
  | fuel + 1, selected =>
    if (selected.length : Int) < num_aps then
      match candidates.find? (fun c => decide (c ∉ selected)) with
      | some ch => fillPhase num_aps candidates fuel (selected ++ [ch])
      | none => selected
    else selected

/-- `get_recommended_5g_channels(num_aps, has_radar_events, neighbor_channels)`.
The `neighbor_channels` set is modelled as a list (only membership is used). -/
def get_recommended_5g_channels (num_aps : Int) (has_radar_events : Bool := false)
    (neighbor_channels : List Int := []) : List Int :=
  let preferred : List Int :=
    if !has_radar_events then List.insertionSort (fun a b : Int => a ≤ b) DFS_5G_CHANNELS
    else []
  let fb : List Int := [149, 153, 157, 161, 36, 40, 44, 48]
  let candidates := preferred ++ fb.filter (fun c => decide (c ∉ preferred))
  let candidates :=
    List.insertionSort (fun a b => sortLe neighbor_channels a b = true) candidates
  let selected := selectPhase num_aps candidates [] []
  let selected := fillPhase num_aps candidates (num_aps.toNat) selected
  pySlice selected 0 num_aps

/-! ## C1 — 5 GHz overlap calibration values -/

/-- C1: the 5 GHz overlap test returns the calibration values the spec fixes:
`channelsOverlap5g(36,36)` with default widths is true, `channelsOverlap5g(36,40,40,40)`
is true, and `channelsOverlap5g(36,149,80,80)` is false. -/
theorem overlap5g_calibration :
    channels_overlap_5g 36 36 = some true ∧
    channels_overlap_5g 36 40 40 40 = some true ∧
    channels_overlap_5g 36 149 80 80 = some false := by
  decide

/-! ## C3 — totality of `channels_overlap_5g`

The claim is false as stated: for a width `w` with `0 ≤ w ≤ 19` the local
`n_channels = width // 20` is `0` and `idx // n_channels` raises
`ZeroDivisionError` whenever the channel is present in the table, so
`channels_overlap_5g` is not total over all integer widths. It is total once
both widths have a nonzero floor-quotient by 20 (in particular for all widths
 `≥ 20`, which includes every width the analyzer's defaults produce). -/

/-- C3 counterexample: `channels_overlap_5g(36, 36, 10, 10)` raises
`ZeroDivisionError` (modelled as `none`) instead of returning a boolean. -/
theorem overlap5g_raises_on_small_width :
    channels_overlap_5g 36 36 10 10 = none := by
  decide

/-- C3 (amended): `channels_overlap_5g` returns a boolean for every pair of
integer channels and every pair of integer widths whose floor-division by 20
is nonzero — in particular for all widths `≥ 20`. -/
theorem overlap5g_total_for_valid_widths (ch1 ch2 w1 w2 : Int)
    (h1 : w1.fdiv 20 ≠ 0) (h2 : w2.fdiv 20 ≠ 0) :
    (channels_overlap_5g ch1 ch2 w1 w2).isSome = true := by
  unfold channels_overlap_5g channel_range
  cases hf1 : base_channels.findIdx? (fun c => c == ch1) with
  | none =>
    cases hf2 : base_channels.findIdx? (fun c => c == ch2) with
    | none => rfl
    | some idx2 => simp [h2]
  | some idx1 =>
    cases hf2 : base_channels.findIdx? (fun c => c == ch2) with
    | none => simp [h1]
    | some idx2 => simp [h1, h2]

/-- Witness for C3's amended theorem at the default widths. -/
theorem overlap5g_total_witness :
    (channels_overlap_5g 36 36 40 40).isSome = true :=
  overlap5g_total_for_valid_widths 36 36 40 40 (by decide) (by decide)

/-! ## Structural lemmas about the 5 GHz recommendation heuristic -/

/-- The sorted candidate list of `get_recommended_5g_channels`. -/
def rec5gCandidates (has_radar_events : Bool) (neighbor_channels : List Int) : List Int :=
  let preferred : List Int :=
    if !has_radar_events then List.insertionSort (fun a b : Int => a ≤ b) DFS_5G_CHANNELS
    else []
  let fb : List Int := [149, 153, 157, 161, 36, 40, 44, 48]
  List.insertionSort (fun a b => sortLe neighbor_channels a b = true)
    (preferred ++ fb.filter (fun c => decide (c ∉ preferred)))

theorem get_recommended_5g_channels_eq (num_aps : Int) (radar : Bool) (nb : List Int) :
    get_recommended_5g_channels num_aps radar nb =
      pySlice
        (fillPhase num_aps (rec5gCandidates radar nb) num_aps.toNat
          (selectPhase num_aps (rec5gCandidates radar nb) [] []))
        0 num_aps := rfl

theorem self_mem_pairFor (ch : Int) : ch ∈ pairFor ch := by
  unfold pairFor
  split <;> simp

theorem selectPhase_mem (n : Int) :
    ∀ (cands sel used : List Int), ∀ x ∈ selectPhase n cands sel used,
      x ∈ sel ∨ x ∈ cands := by
  intro cands
  induction cands with
  | nil =>
    intro sel used x hx
    exact Or.inl (by simpa [selectPhase] using hx)
  | cons ch rest ih =>
    intro sel used x hx
    rw [selectPhase] at hx
    split at hx
    · dsimp only at hx
      split at hx
      · rcases List.mem_append.1 hx with h | h
        · exact Or.inl h
        · simp [List.mem_singleton.1 h]
      · rcases ih _ _ x hx with h | h
        · rcases List.mem_append.1 h with h' | h'
          · exact Or.inl h'
          · simp [List.mem_singleton.1 h']
        · exact Or.inr (List.mem_cons_of_mem _ h)
    · rcases ih _ _ x hx with h | h
      · exact Or.inl h
      · exact Or.inr (List.mem_cons_of_mem _ h)

theorem selectPhase_nodup (n : Int) :
    ∀ (cands sel used : List Int), sel.Nodup → (∀ c ∈ sel, c ∈ used) →
      (selectPhase n cands sel used).Nodup := by
  intro cands
  induction cands with
  | nil => intro sel used hnd _; simpa [selectPhase] using hnd
  | cons ch rest ih =>
    intro sel used hnd hsub
    rw [selectPhase]
    split
    · rename_i hall
      have hchu : ch ∉ used := by
        have := List.all_eq_true.1 hall ch (self_mem_pairFor ch)
        simpa using this
      have hchs : ch ∉ sel := fun h => hchu (hsub ch h)
      have hnd' : (sel ++ [ch]).Nodup := by
        simp [List.nodup_append, hnd, List.disjoint_singleton, hchs]
      dsimp only
      split
      · exact hnd'
      · refine ih _ _ hnd' ?_
        intro c hc
        rcases List.mem_append.1 hc with h | h
        · exact List.mem_append.2 (Or.inl (hsub c h))
        · simp [List.mem_singleton.1 h, List.mem_append, self_mem_pairFor]
    · exact ih _ _ hnd hsub

theorem selectPhase_length_le (n : Int) :
    ∀ (cands sel used : List Int), (sel.length : Int) < n →
      ((selectPhase n cands sel used).length : Int) ≤ n := by
  intro cands
  induction cands with
  | nil => intro sel used h; simp [selectPhase]; omega
  | cons ch rest ih =>
    intro sel used h
    rw [selectPhase]
    split
    · dsimp only
      split
      · simpa using by omega
      · rename_i hbreak
        exact ih _ _ (by simp at hbreak ⊢; omega)
    · exact ih _ _ h

theorem selectPhase_length_le_one (n : Int) :
    ∀ (cands sel used : List Int), n ≤ (sel.length : Int) + 1 →
      (selectPhase n cands sel used).length ≤ sel.length + 1 := by
  intro cands
  induction cands with
  | nil => intro sel used _; simp [selectPhase]
  | cons ch rest ih =>
    intro sel used h
    rw [selectPhase]
    split
    · dsimp only
      split
      · simp
      · rename_i hbreak
        exfalso
        simp at hbreak
        omega
    · exact Nat.le_trans (ih _ _ h) (by omega)

theorem fillPhase_mem (n : Int) (cands : List Int) :
    ∀ (fuel : Nat) (sel : List Int), ∀ x ∈ fillPhase n cands fuel sel,
      x ∈ sel ∨ x ∈ cands := by
  intro fuel
  induction fuel with
  | zero => intro sel x hx; exact Or.inl (by simpa [fillPhase] using hx)
  | succ fuel ih =>
    intro sel x hx
    rw [fillPhase] at hx
    split at hx
    · cases hf : cands.find? (fun c => decide (c ∉ sel)) with
      | some ch =>
        rw [hf] at hx
        rcases ih _ x hx with h | h
        · rcases List.mem_append.1 h with h' | h'
          · exact Or.inl h'
          · exact Or.inr (by
              have := List.find?_some hf
              have hm := List.mem_of_find?_eq_some hf
              simp [List.mem_singleton.1 h', hm])
        · exact Or.inr h
      | none => rw [hf] at hx; exact Or.inl hx
    · exact Or.inl hx

theorem fillPhase_nodup (n : Int) (cands : List Int) :
    ∀ (fuel : Nat) (sel : List Int), sel.Nodup → (fillPhase n cands fuel sel).Nodup := by
  intro fuel
  induction fuel with
  | zero => intro sel h; simpa [fillPhase] using h
  | succ fuel ih =>
    intro sel hnd
    rw [fillPhase]
    split
    · cases hf : cands.find? (fun c => decide (c ∉ sel)) with
      | some ch =>
        refine ih _ ?_
        have hch : ch ∉ sel := by simpa using List.find?_some hf
        simp [List.nodup_append, hnd, List.disjoint_singleton, hch]
      | none => exact hnd
    · exact hnd

theorem fillPhase_length_le (n : Int) (cands : List Int) :
    ∀ (fuel : Nat) (sel : List Int), (sel.length : Int) ≤ n →
      ((fillPhase n cands fuel sel).length : Int) ≤ n := by
  intro fuel
  induction fuel with
  | zero => intro sel h; simpa [fillPhase] using h
  | succ fuel ih =>
    intro sel h
    rw [fillPhase]
    split
    · rename_i hlt
      cases hf : cands.find? (fun c => decide (c ∉ sel)) with
      | some ch => exact ih _ (by simp; omega)
      | none => exact h
    · exact h

theorem fillPhase_length_eq (n : Int) (cands : List Int) (hcnd : cands.Nodup)
    (hn : n ≤ (cands.length : Int)) :
    ∀ (fuel : Nat) (sel : List Int), sel.Nodup → sel ⊆ cands →
      (sel.length : Int) ≤ n → n ≤ (sel.length : Int) + (fuel : Int) →
      ((fillPhase n cands fuel sel).length : Int) = n := by
  intro fuel
  induction fuel with
  | zero =>
    intro sel _ _ hle hge
    rw [fillPhase]
    simp at hge ⊢
    omega
  | succ fuel ih =>
    intro sel hnd hsub hle hge
    rw [fillPhase]
    split
    · rename_i hlt
      cases hf : cands.find? (fun c => decide (c ∉ sel)) with
      | some ch =>
        have hch : ch ∉ sel := by simpa using List.find?_some hf
        have hchc : ch ∈ cands := List.mem_of_find?_eq_some hf
        refine ih _ ?_ ?_ ?_ ?_
        · simp [List.nodup_append, hnd, List.disjoint_singleton, hch]
        · intro x hx
          rcases List.mem_append.1 hx with h | h
          · exact hsub h
          · simpa [List.mem_singleton.1 h] using hchc
        · simp; omega
        · simp; omega
      | none =>
        exfalso
        have hall : ∀ x ∈ cands, x ∈ sel := by
          intro x hx
          have := List.find?_eq_none.1 hf x hx
          simpa using this
        have : cands.length ≤ sel.length :=
          (List.subperm_of_subset hcnd hall).length_le
        omega
    · rename_i hge'
      simp at hge' ⊢
      omega

theorem pySlice_zero_sublist (l : List α) (b : Int) : (pySlice l 0 b).Sublist l := by
  unfold pySlice pySliceIdx
  simp only [show ¬((0 : Int) < 0) from by omega, if_neg]
  refine List.Sublist.trans (List.drop_sublist _ _) (List.take_sublist _ _)

theorem pySlice_zero_length_le (l : List α) (b : Int) (hb : 0 ≤ b) :
    ((pySlice l 0 b).length : Int) ≤ b := by
  unfold pySlice pySliceIdx
  simp only [show ¬(b < 0) from by omega]
  simp
  omega

theorem pySlice_zero_of_le (l : List α) (b : Int) (hb : (l.length : Int) ≤ b) :
    pySlice l 0 b = l := by
  unfold pySlice pySliceIdx
  have h0 : ¬(b < 0) := by omega
  simp only [h0, if_neg, if_false]
  simp
  have : min b (l.length : Int) = (l.length : Int) := by omega
  rw [this]
  simp

theorem pySlice_zero_neg (l : List α) (b : Int) (hb : b < 0)
    (hshort : (l.length : Int) + b ≤ 0) : pySlice l 0 b = [] := by
  unfold pySlice pySliceIdx
  simp only [hb, if_pos]
  have : max 0 ((l.length : Int) + b) = 0 := by omega
  simp [this]

/-- The unsorted candidate list `preferred + [c for c in fallback if c not in preferred]`
of `get_recommended_5g_channels`. -/
def rec5gBase (has_radar_events : Bool) : List Int :=
  (if !has_radar_events then List.insertionSort (fun a b : Int => a ≤ b) DFS_5G_CHANNELS
   else []) ++
  [149, 153, 157, 161, 36, 40, 44, 48].filter (fun c =>
    decide (c ∉ (if !has_radar_events then
      List.insertionSort (fun a b : Int => a ≤ b) DFS_5G_CHANNELS else [])))

theorem rec5gCandidates_eq (radar : Bool) (nb : List Int) :
    rec5gCandidates radar nb =
      List.insertionSort (fun a b => sortLe nb a b = true) (rec5gBase radar) := rfl

theorem rec5gCandidates_perm (radar : Bool) (nb : List Int) :
    List.Perm (rec5gCandidates radar nb) (rec5gBase radar) := by
  rw [rec5gCandidates_eq]
  exact List.perm_insertionSort _ _

theorem rec5gBase_radar : rec5gBase true = [149, 153, 157, 161, 36, 40, 44, 48] := by
  decide

theorem rec5gCandidates_radar_perm (nb : List Int) :
    List.Perm (rec5gCandidates true nb) [149, 153, 157, 161, 36, 40, 44, 48] := by
  rw [← rec5gBase_radar]
  exact rec5gCandidates_perm true nb

theorem rec5gBase_subset (radar : Bool) : ∀ x ∈ rec5gBase radar, x ∈ ALL_5G_CHANNELS := by
  cases radar <;> decide

theorem rec5gCandidates_subset (radar : Bool) (nb : List Int) :
    ∀ x ∈ rec5gCandidates radar nb, x ∈ ALL_5G_CHANNELS := by
  intro x hx
  exact rec5gBase_subset radar x ((rec5gCandidates_perm radar nb).mem_iff.1 hx)

theorem rec5g_mem_candidates (numAps : Int) (radar : Bool) (nb : List Int) :
    ∀ ch ∈ get_recommended_5g_channels numAps radar nb, ch ∈ rec5gCandidates radar nb := by
  intro ch hch
  rw [get_recommended_5g_channels_eq] at hch
  have h1 := (pySlice_zero_sublist _ _).subset hch
  rcases fillPhase_mem _ _ _ _ ch h1 with h | h
  · rcases selectPhase_mem _ _ _ _ ch h with h' | h'
    · simp at h'
    · exact h'
  · exact h

/-! ## C4 — radar events exclude DFS channels -/

/-- C4: with `hasRadarEvents = true`, no recommended 5 GHz channel is a DFS
channel (for every AP count and neighbor set), and for 4 APs exactly 4
channels are returned. -/
theorem rec5g_radar_excludes_dfs (numAps : Int) (nb : List Int) :
    (∀ ch ∈ get_recommended_5g_channels numAps true nb, ch ∉ DFS_5G_CHANNELS) ∧
    (get_recommended_5g_channels 4 true nb).length = 4 := by
  constructor
  · intro ch hch
    have hc := rec5g_mem_candidates numAps true nb ch hch
    have hfb := (rec5gCandidates_radar_perm nb).mem_iff.1 hc
    have hall : ∀ y ∈ [(149 : Int), 153, 157, 161, 36, 40, 44, 48],
        y ∉ DFS_5G_CHANNELS := by decide
    exact hall ch hfb
  · rw [get_recommended_5g_channels_eq]
    have hperm := rec5gCandidates_radar_perm nb
    have hnd : (rec5gCandidates true nb).Nodup := hperm.nodup_iff.2 (by decide)
    have hlen : (rec5gCandidates true nb).length = 8 := by
      rw [hperm.length_eq]; rfl
    have hsel0nd : (selectPhase 4 (rec5gCandidates true nb) [] []).Nodup :=
      selectPhase_nodup 4 _ [] [] (by simp) (by simp)
    have hsel0sub : selectPhase 4 (rec5gCandidates true nb) [] [] ⊆
        rec5gCandidates true nb := by
      intro x hx
      rcases selectPhase_mem 4 _ [] [] x hx with h | h
      · simp at h
      · exact h
    have hsel0len : ((selectPhase 4 (rec5gCandidates true nb) [] []).length : Int) ≤ 4 :=
      selectPhase_length_le 4 _ [] [] (by norm_num)
    have hfill : ((fillPhase 4 (rec5gCandidates true nb) (Int.toNat 4)
        (selectPhase 4 (rec5gCandidates true nb) [] [])).length : Int) = 4 := by
      refine fillPhase_length_eq 4 _ hnd (by rw [hlen]; norm_num) _ _
        hsel0nd hsel0sub hsel0len (by simp)
    rw [pySlice_zero_of_le _ 4 (by omega)]
    omega

/-- Witness for C4 at 4 APs and an empty neighbor set. -/
theorem rec5g_radar_excludes_dfs_witness :
    (149 ∈ get_recommended_5g_channels 4 true []) ∧ (149 ∉ DFS_5G_CHANNELS) ∧
    (get_recommended_5g_channels 4 true []).length = 4 :=
  ⟨by decide, (rec5g_radar_excludes_dfs 4 []).1 149 (by decide),
    (rec5g_radar_excludes_dfs 4 []).2⟩

/-! ## C9 — the recommended 5 GHz list is duplicate-free, bounded, and known -/

/-- C9: for every AP count, radar flag and neighbor set, the recommended
5 GHz channel list has pairwise-distinct elements, has at most `numAPs`
entries, and mentions only known 5 GHz channels. -/
theorem rec5g_distinct_bounded (numAps : Int) (radar : Bool) (nb : List Int) :
    (get_recommended_5g_channels numAps radar nb).Nodup ∧
    (get_recommended_5g_channels numAps radar nb).length ≤ numAps.toNat ∧
    ∀ ch ∈ get_recommended_5g_channels numAps radar nb, ch ∈ ALL_5G_CHANNELS := by
  refine ⟨?_, ?_, ?_⟩
  · rw [get_recommended_5g_channels_eq]
    exact (pySlice_zero_sublist _ _).nodup
      (fillPhase_nodup _ _ _ _
        (selectPhase_nodup _ _ [] [] (by simp) (by simp)))
  · rw [get_recommended_5g_channels_eq]
    by_cases h0 : 0 ≤ numAps
    · have := pySlice_zero_length_le
        (fillPhase numAps (rec5gCandidates radar nb) numAps.toNat
          (selectPhase numAps (rec5gCandidates radar nb) [] [])) numAps h0
      omega
    · have hneg : numAps < 0 := by omega
      have hfuel : numAps.toNat = 0 := by omega
      rw [hfuel]
      have hsel1 : (selectPhase numAps (rec5gCandidates radar nb) [] []).length ≤ 1 :=
        selectPhase_length_le_one numAps _ [] [] (by simp; omega)
      rw [show fillPhase numAps (rec5gCandidates radar nb) 0
          (selectPhase numAps (rec5gCandidates radar nb) [] []) =
          selectPhase numAps (rec5gCandidates radar nb) [] [] from rfl]
      rw [pySlice_zero_neg _ numAps hneg (by omega)]
      simp
  · intro ch hch
    exact rec5gCandidates_subset radar nb ch (rec5g_mem_candidates numAps radar nb ch hch)

/-- Witness for C9 at 4 APs, no radar, empty neighbor set. -/
theorem rec5g_distinct_bounded_witness :
    (get_recommended_5g_channels 4 false []).Nodup ∧ (36 ∈ ALL_5G_CHANNELS) :=
  ⟨(rec5g_distinct_bounded 4 false []).1,
    (rec5g_distinct_bounded 4 false []).2.2 36 (by decide)⟩

/-! ## Data model (`models/types.py`, `api/client.py`)

Only the fields that `rf.analyze` reads are modelled; every other field of
the pydantic models is dead for the claims below. ASCII apostrophes inside
source strings are rendered as U+2019. -/

inductive Severity
  | critical
  | warning
  | info
  | good
deriving DecidableEq

inductive Band
  | band_2g
  | band_5g
  | band_6g
deriving DecidableEq

inductive FloorLevel
  | ground
  | upper
  | basement
  | detached
deriving DecidableEq

inductive BackhaulType
  | wired
  | wireless_mesh
deriving DecidableEq

inductive BarrierType
  | wall
  | floor_ceiling
  | outdoor
  | open_air
deriving DecidableEq

/-- The pydantic `channel: int | str` field. -/
inductive IntOrStr
  | ofInt (n : Int)
  | ofStr (s : String)
deriving DecidableEq

/-- Python truthiness of an `int | str` value (`0` and `""` are falsy). -/
def pyTruthy : IntOrStr → Bool
  | .ofInt n => n != 0
  | .ofStr s => s != ""

/-- Digits of Python `int(str)` after the sign: underscores are allowed
between digits only. -/
def digitsVal : Nat → List Char → Option Nat
  | acc, [] => some acc
  | acc, '_' :: d :: rest =>
    if d.isDigit then digitsVal (acc * 10 + (d.toNat - 48)) rest else none
  | _, ['_'] => none
  | acc, c :: rest =>
    if c.isDigit then digitsVal (acc * 10 + (c.toNat - 48)) rest else none

def digitsStart : List Char → Option Nat
  | [] => none
  | c :: rest => if c.isDigit then digitsVal (c.toNat - 48) rest else none

/-- Python `int(s)` on a string: strip whitespace, optional sign, decimal
digits (ASCII; exotic unicode digits are not modelled). `none` models a
`ValueError`. -/
def pyParseInt (s : String) : Option Int :=
  let cs := ((s.data.dropWhile Char.isWhitespace).reverse.dropWhile Char.isWhitespace).reverse
  match cs with
  | '+' :: rest => (digitsStart rest).map (fun n => (n : Int))
  | '-' :: rest => (digitsStart rest).map (fun n => -(n : Int))
  | rest => (digitsStart rest).map (fun n => (n : Int))

/-- `_parse_channel`: coerce to `int`, `0` on failure. -/
def parse_channel : IntOrStr → Int
  | .ofInt n => n
  | .ofStr s =>
    match pyParseInt s with
    | some n => n
    | none => 0

structure RadioTableEntry where
  radio : String := ""
  channel : IntOrStr := .ofInt 0
  ht : Int := 20
  tx_power : Int := 0
  tx_power_mode : String := "auto"
  cu_total : Int := 0
  noise_floor : Int := -100
deriving DecidableEq

structure RadioTableStatsEntry where
  name : String := ""
  channel : IntOrStr := .ofInt 0
  cu_total : Int := 0
  noise_floor : Int := -100
deriving DecidableEq

/-- The result of `_get_radio_stats` / `_get_radio_config`: a `model_dump()`
dictionary of one of the two radio models, or the empty dict `{}`.
Accessors mirror `.get(key, default)` — a key absent from the underlying
model falls back to the default. -/
inductive RadioDict
  | rStats (rs : RadioTableStatsEntry)
  | rCfg (rt : RadioTableEntry)
  | rEmpty
deriving DecidableEq

/-- `.get("channel")` (default `None`). -/
def RadioDict.chan? : RadioDict → Option IntOrStr
  | .rStats rs => some rs.channel
  | .rCfg rt => some rt.channel
  | .rEmpty => none

/-- `.get("channel", 0)`. -/
def RadioDict.chanD : RadioDict → IntOrStr
  | .rStats rs => rs.channel
  | .rCfg rt => rt.channel
  | .rEmpty => .ofInt 0

/-- `.get("ht", default)` — only config dumps carry an `ht` key. -/
def RadioDict.htD : RadioDict → Int → Int
  | .rCfg rt, _ => rt.ht
  | _, dflt => dflt

/-- `.get("tx_power_mode", default)` — only config dumps carry the key. -/
def RadioDict.txPowerModeD : RadioDict → String → String
  | .rCfg rt, _ => rt.tx_power_mode
  | _, dflt => dflt

/-- `.get("tx_power", default)` — only config dumps carry the key. -/
def RadioDict.txPowerD : RadioDict → Int → Int
  | .rCfg rt, _ => rt.tx_power
  | _, dflt => dflt

/-- `.get("cu_total", default)` — both dumps carry the key. -/
def RadioDict.cuTotalD : RadioDict → Int → Int
  | .rStats rs, _ => rs.cu_total
  | .rCfg rt, _ => rt.cu_total
  | .rEmpty, dflt => dflt

/-- `.get("noise_floor", default)` — both dumps carry the key. -/
def RadioDict.noiseFloorD : RadioDict → Int → Int
  | .rStats rs, _ => rs.noise_floor
  | .rCfg rt, _ => rt.noise_floor
  | .rEmpty, dflt => dflt

structure DeviceInfo where
  mac : String := ""
  name : String := ""
  type : String := ""
  radio_table : List RadioTableEntry := []
  radio_table_stats : List RadioTableStatsEntry := []
deriving DecidableEq

def DeviceInfo.is_ap (d : DeviceInfo) : Bool := d.type == "uap"

/-- `display_name = self.name or self.mac`. -/
def DeviceInfo.display_name (d : DeviceInfo) : String :=
  if d.name == "" then d.mac else d.name

structure RogueAP where
  channel : Int := 0
deriving DecidableEq

structure Event where
  key : String := ""
  msg : String := ""
deriving DecidableEq

structure APPlacement where
  mac : String
  name : String
  floor : FloorLevel := .ground
  location_description : String := ""
  backhaul : BackhaulType := .wired
deriving DecidableEq

structure APLink where
  ap1_mac : String
  ap2_mac : String
  distance_ft : ℚ := 0
  barrier : BarrierType := .wall
deriving DecidableEq

structure Topology where
  placements : List APPlacement := []
  links : List APLink := []
deriving DecidableEq

/-- `NetworkSnapshot` restricted to the fields `rf.analyze` reads
(`clients`, `wlan_configs`, `settings` and `health` are unused there). -/
structure NetworkSnapshot where
  devices : List DeviceInfo := []
  rogue_aps : List RogueAP := []
  events : List Event := []
deriving DecidableEq

/-- `snapshot.aps`: the devices whose type is `uap`. -/
def NetworkSnapshot.aps (s : NetworkSnapshot) : List DeviceInfo :=
  s.devices.filter (fun d => d.is_ap)

/-! ## Python dict helpers (insertion-ordered association lists) -/

/-- `d[k] = v`: update in place if the key exists, else append. -/
def dictSet [BEq K] (d : List (K × V)) (k : K) (v : V) : List (K × V) :=
  if d.any (fun p => p.1 == k) then d.map (fun p => if p.1 == k then (k, v) else p)
  else d ++ [(k, v)]

/-- `d.get(k)`. -/
def dictGet? [BEq K] (d : List (K × V)) (k : K) : Option V :=
  (d.find? (fun p => p.1 == k)).map (fun p => p.2)

/-- `d.get(k, v₀)`. -/
def dictGetD [BEq K] (d : List (K × V)) (k : K) (v₀ : V) : V :=
  (dictGet? d k).getD v₀

/-! ## RF analyzer (`analysis/rf.py`) -/

def MODULE : String := "rf-analysis"

/-- `_get_radio_stats(ap, band)`: first stats entry matched by channel
number, else first config entry matched by radio tag, else `{}`. -/
def get_radio_stats (ap : DeviceInfo) (band : String) : RadioDict :=
  match ap.radio_table_stats.find? (fun rs =>
      let ch := parse_channel rs.channel
      (band == "2g" && decide (0 < ch) && decide (ch ≤ 14)) ||
      (band == "5g" && decide (14 < ch))) with
  | some rs => .rStats rs
  | none =>
    match ap.radio_table.find? (fun rt =>
        (band == "2g" && (rt.radio == "ng" || rt.radio == "ra0")) ||
        (band == "5g" && (rt.radio == "na" || rt.radio == "rai0" || rt.radio == "ra1"))) with
    | some rt => .rCfg rt
    | none => .rEmpty

/-- `_get_radio_config(ap, band)`. -/
def get_radio_config (ap : DeviceInfo) (band : String) : RadioDict :=
  match ap.radio_table.find? (fun rt =>
      let ch := parse_channel rt.channel
      (band == "2g" && ((rt.radio == "ng" || rt.radio == "ra0") ||
        (decide (0 < ch) && decide (ch ≤ 14)))) ||
      (band == "5g" && ((rt.radio == "na" || rt.radio == "rai0" || rt.radio == "ra1") ||
        decide (14 < ch)))) with
  | some rt => .rCfg rt
  | none => .rEmpty

/-- Python `a or b` applied to an optional channel value. -/
def pyOrChan (o : Option IntOrStr) (b : IntOrStr) : IntOrStr :=
  match o with
  | some v => if pyTruthy v then v else b
  | none => b

/-- `_parse_channel(stats.get("channel") or cfg.get("channel", 0))`. -/
def resolve_channel (ap : DeviceInfo) (band : String) : Int :=
  parse_channel (pyOrChan ((get_radio_stats ap band).chan?) ((get_radio_config ap band).chanD))

/-- `ap_channels_2g` / `ap_channels_5g`: mac → nonzero resolved channel. -/
def ap_channels (aps : List DeviceInfo) (band : String) : List (String × Int) :=
  aps.foldl (fun d ap =>
    let ch := resolve_channel ap band
    if ch ≠ 0 then dictSet d ap.mac ch else d) []

/-- `ap_widths_2g` / `ap_widths_5g`: mac → `cfg.get("ht", default)`. -/
def ap_widths (aps : List DeviceInfo) (band : String) (dflt : Int) : List (String × Int) :=
  aps.foldl (fun d ap => dictSet d ap.mac ((get_radio_config ap band).htD dflt)) []

structure Finding where
  severity : Severity
  module : String
  title : String
  detail : String
  recommendation : String
  ui_path : String := ""
deriving DecidableEq

structure ChannelPlan where
  ap_mac : String
  ap_name : String
  band : Band
  current_channel : Int := 0
  recommended_channel : Int := 0
  current_width : Int := 20
  recommended_width : Int := 20
  current_power : String := ""
  recommended_power : String := ""
  reason : String := ""
deriving DecidableEq

/-- The single Finding of the empty-AP-list early return. -/
def noAPsFinding : Finding :=
  { severity := .warning, module := MODULE, title := "No APs found",
    detail := "No access points were discovered. Cannot perform RF analysis.",
    recommendation := "Ensure APs are adopted and online." }

/-- Check 1 — invalid 2.4 GHz channels. -/
def check_invalid_24g (aps : List DeviceInfo) (ch2g : List (String × Int)) : List Finding :=
  aps.filterMap (fun ap =>
    let ch := dictGetD ch2g ap.mac 0
    if ch ≠ 0 ∧ is_valid_24g_channel ch = false then
      some { severity := .warning, module := MODULE,
             title := ap.display_name ++ ": Invalid 2.4 GHz channel " ++ toString ch,
             detail := "Channel " ++ toString ch ++ " on 2.4 GHz is not one of the three non-overlapping channels. Using non-standard channels causes overlap with neighboring channels and increases interference for everyone.",
             recommendation := "Change to channel 1, 6, or 11.",
             ui_path := "UniFi > Devices > " ++ ap.display_name ++ " > Settings > Radios > 2.4 GHz > Channel" }
    else none)

/-- Check 2 — 2.4 GHz width above 20 MHz. -/
def check_24g_width (aps : List DeviceInfo) (w2g : List (String × Int)) : List Finding :=
  aps.filterMap (fun ap =>
    let w := dictGetD w2g ap.mac 20
    if 20 < w then
      some { severity := .warning, module := MODULE,
             title := ap.display_name ++ ": 2.4 GHz width is " ++ toString w ++ " MHz (should be 20)",
             detail := "Channel widths above 20 MHz on 2.4 GHz cause massive overlap with neighboring channels. There are only 3 non-overlapping 20 MHz channels.",
             recommendation := "Set 2.4 GHz channel width to 20 MHz (HT20).",
             ui_path := "Devices > " ++ ap.display_name ++ " > Settings > Radios > 2.4 GHz > Channel Width" }
    else none)

/-- `ch_to_aps_5g`: channel → macs (`setdefault(ch, []).append(mac)`). -/
def ch_to_aps_5g (ch5g : List (String × Int)) : List (Int × List String) :=
  ch5g.foldl (fun d p =>
    match dictGet? d p.2 with
    | some macs => dictSet d p.2 (macs ++ [p.1])
    | none => d ++ [(p.2, [p.1])]) []

/-- `next((a.display_name for a in aps if a.mac == m), m)`. -/
def next_display_name (aps : List DeviceInfo) (m : String) : String :=
  match aps.find? (fun a => a.mac == m) with
  | some a => a.display_name
  | none => m

/-- Check 3 — duplicate 5 GHz channels. -/
def check_dup_5g (aps : List DeviceInfo) (ch5g : List (String × Int)) : List Finding :=
  (ch_to_aps_5g ch5g).filterMap (fun p =>
    if 1 < p.2.length then
      some { severity := .critical, module := MODULE,
             title := "5 GHz channel " ++ toString p.1 ++ " shared by " ++ toString p.2.length ++ " APs",
             detail := "APs " ++ String.intercalate ", " (p.2.map (next_display_name aps)) ++ " are all on 5 GHz channel " ++ toString p.1 ++ ". This causes co-channel interference (CCI) and dramatically reduces throughput for clients on all of these APs.",
             recommendation := "Assign unique, non-overlapping 5 GHz channels to each AP. See the channel plan below.",
             ui_path := "Devices > [AP] > Settings > Radios > 5 GHz > Channel" }
    else none)

/-- All index pairs `i < j` of a list, in loop order. -/
def pairsAfter : List α → List (α × α)
  | [] => []
  | x :: rest => rest.map (fun y => (x, y)) ++ pairsAfter rest

/-- Check 4 — overlapping (distinct) 5 GHz channels. `none` propagates the
`ZeroDivisionError` that `channels_overlap_5g` can raise for a width `w`
with `w // 20 == 0`. -/
def check_overlap_5g (aps : List DeviceInfo) (ch5g w5g : List (String × Int)) :
    Option (List Finding) :=
  (pairsAfter (ch5g.map (fun p => p.1))).foldlM (fun acc pr =>
    let ch1 := dictGetD ch5g pr.1 0
    let ch2 := dictGetD ch5g pr.2 0
    let w1 := dictGetD w5g pr.1 40
    let w2 := dictGetD w5g pr.2 40
    if ch1 ≠ ch2 then
      match channels_overlap_5g ch1 ch2 w1 w2 with
      | none => none
      | some b =>
        if b then
          some (acc ++ [{ severity := .warning, module := MODULE,
                          title := "5 GHz channel overlap: " ++ next_display_name aps pr.1 ++ " (ch" ++ toString ch1 ++ "/" ++ toString w1 ++ "MHz) ↔ " ++ next_display_name aps pr.2 ++ " (ch" ++ toString ch2 ++ "/" ++ toString w2 ++ "MHz)",
                          detail := "These channels overlap at the configured widths, causing interference.",
                          recommendation := "Use non-overlapping channels or reduce channel width to 40 MHz." }])
        else some acc
    else some acc) []

/-- Check 5 — channel utilization per AP per band. -/
def check_utilization (aps : List DeviceInfo) : List Finding :=
  aps.flatMap (fun ap =>
    [("2.4 GHz", "2g"), ("5 GHz", "5g")].filterMap (fun bp =>
      let cu := (get_radio_stats ap bp.2).cuTotalD 0
      if CHANNEL_UTIL_WARNING_PCT < cu then
        some { severity := .warning, module := MODULE,
               title := ap.display_name ++ ": " ++ bp.1 ++ " channel utilization at " ++ toString cu ++ "%",
               detail := "Channel utilization above " ++ toString CHANNEL_UTIL_WARNING_PCT ++ "% means the airtime is congested. Clients will experience delays and retransmissions.",
               recommendation := "Consider changing channels, reducing channel width, or lowering TX power to reduce self-interference." }
      else none))

/-- Check 6 — noise floor per AP per band. -/
def check_noise (aps : List DeviceInfo) : List Finding :=
  aps.flatMap (fun ap =>
    [("2.4 GHz", "2g"), ("5 GHz", "5g")].filterMap (fun bp =>
      let nf := (get_radio_stats ap bp.2).noiseFloorD (-100)
      if NOISE_FLOOR_WARNING_DBM < nf then
        some { severity := .warning, module := MODULE,
               title := ap.display_name ++ ": " ++ bp.1 ++ " noise floor is " ++ toString nf ++ " dBm",
               detail := "A noise floor above " ++ toString NOISE_FLOOR_WARNING_DBM ++ " dBm indicates significant RF interference from non-WiFi sources (microwaves, Bluetooth, baby monitors, etc.).",
               recommendation := "Identify and relocate interference sources. Consider changing channels." }
      else none))

/-- Check 7 preprocessing — per-band neighbor channel counters. -/
def neighbor_counts (rogues : List RogueAP) : List (Int × Int) × List (Int × Int) :=
  rogues.foldl (fun d r =>
    let ch := parse_channel (.ofInt r.channel)
    if 0 < ch ∧ ch ≤ 14 then (dictSet d.1 ch (dictGetD d.1 ch 0 + 1), d.2)
    else if 14 < ch then (d.1, dictSet d.2 ch (dictGetD d.2 ch 0 + 1))
    else d) ([], [])

def total_neighbors (nc : List (Int × Int) × List (Int × Int)) : Int :=
  (nc.1.map (fun p => p.2)).sum + (nc.2.map (fun p => p.2)).sum

/-- Check 7 — top-3 most-observed 2.4 GHz neighbor channels with ≥ 5 hits.
Python's stable sort by `-count` equals a stable sort by non-strict
descending count. -/
def check_neighbors_24g (nc2g : List (Int × Int)) (total : Int) : List Finding :=
  if 0 < total then
    ((List.insertionSort (fun a b : Int × Int => b.2 ≤ a.2) nc2g).take 3).filterMap (fun p =>
      if 5 ≤ p.2 then
        some { severity := .info, module := MODULE,
               title := "2.4 GHz channel " ++ toString p.1 ++ ": " ++ toString p.2 ++ " neighboring networks detected",
               detail := "Heavy neighbor presence on this channel increases contention.",
               recommendation := "Avoid channel " ++ toString p.1 ++ " on 2.4 GHz if possible." }
      else none)
  else []

/-- Check 8 — ≥ 80 MHz width with many neighbors. -/
def check_80mhz (aps : List DeviceInfo) (w5g : List (String × Int)) (total : Int) :
    List Finding :=
  aps.filterMap (fun ap =>
    let w := dictGetD w5g ap.mac 40
    if 80 ≤ w ∧ MAX_NEIGHBORS_FOR_80MHZ < total then
      some { severity := .warning, module := MODULE,
             title := ap.display_name ++ ": 5 GHz using " ++ toString w ++ " MHz width with many neighbors",
             detail := "80 MHz channels use more spectrum and are more likely to overlap with the " ++ toString total ++ " neighboring networks detected. 40 MHz is more reliable in most home environments.",
             recommendation := "Reduce 5 GHz channel width to 40 MHz (VHT40).",
             ui_path := "Devices > " ++ ap.display_name ++ " > Settings > Radios > 5 GHz > Channel Width" }
    else none)

/-- Check 9 — 2.4 GHz power mode high / custom above 17 dBm. -/
def check_24g_power (aps : List DeviceInfo) : List Finding :=
  aps.filterMap (fun ap =>
    let cfg := get_radio_config ap "2g"
    let power_mode := cfg.txPowerModeD "auto"
    let tx_power := cfg.txPowerD 0
    if power_mode == "high" || (power_mode == "custom" && decide (17 < tx_power)) then
      some { severity := .warning, module := MODULE,
             title := ap.display_name ++ ": 2.4 GHz power is too high (" ++ power_mode ++ ", " ++ toString tx_power ++ " dBm)",
             detail := "High 2.4 GHz power causes asymmetric links — clients hear the AP fine but can’t transmit back as loudly. This leads to poor performance and sticky clients that won’t roam.",
             recommendation := "Set 2.4 GHz TX power to Low or Medium.",
             ui_path := "Devices > " ++ ap.display_name ++ " > Settings > Radios > 2.4 GHz > Transmit Power" }
    else none)

/-! ## Channel plan generation and `analyze` -/

def hasPref : List Char → List Char → Bool
  | [], _ => true
  | _ :: _, [] => false
  | a :: p, b :: l => a == b && hasPref p l

/-- Substring search over characters. -/
def subSearch (p : List Char) : List Char → Bool
  | [] => p.isEmpty
  | l@(_ :: rest) => hasPref p l || subSearch p rest

/-- Python `pat in s`. -/
def strContains (s pat : String) : Bool := subSearch pat.data s.data

/-- Python `s.lower()` (per-character; ASCII-faithful). -/
def lowerStr (s : String) : String := String.mk (s.data.map Char.toLower)

/-- `any("radar" in e.key.lower() or "radar" in e.msg.lower() for e in events)`. -/
def has_radar_detected (s : NetworkSnapshot) : Bool :=
  s.events.any (fun e =>
    strContains (lowerStr e.key) "radar" || strContains (lowerStr e.msg) "radar")

/-- `placement_map = {p.mac: p for p in topology.placements}`. -/
def placement_map (t : Topology) : List (String × APPlacement) :=
  t.placements.foldl (fun d p => dictSet d p.mac p) []

/-- `is_outdoor = placement and placement.floor == FloorLevel.DETACHED`
(missing placement behaves as indoor). -/
def is_outdoor_ap (t : Topology) (mac : String) : Bool :=
  match dictGet? (placement_map t) mac with
  | some p => p.floor == FloorLevel.detached
  | none => false

/-- The 2.4 GHz `ChannelPlan` row of AP number `i`;
`rec_2g_channels[i] if i < len(rec_2g_channels) else 1` is `List.getD i 1`. -/
def mk_plan_2g (ch2g w2g : List (String × Int)) (rec2gl : List Int) (i : Nat)
    (ap : DeviceInfo) : ChannelPlan :=
  { ap_mac := ap.mac
    ap_name := ap.display_name
    band := .band_2g
    current_channel := dictGetD ch2g ap.mac 0
    recommended_channel := rec2gl.getD i 1
    current_width := dictGetD w2g ap.mac 20
    recommended_width := 20
    current_power := (get_radio_config ap "2g").txPowerModeD "auto"
    recommended_power := RECOMMENDED_24G_POWER
    reason := "2.4 GHz: channel 1/6/11, 20 MHz width, low power" }

/-- The 5 GHz `ChannelPlan` row of AP number `i`;
`rec_5g_channels[i] if i < len(rec_5g_channels) else 36` is `List.getD i 36`. -/
def mk_plan_5g (t : Topology) (ch5g w5g : List (String × Int)) (rec5gl : List Int)
    (has_radar : Bool) (i : Nat) (ap : DeviceInfo) : ChannelPlan :=
  let rec_power :=
    if is_outdoor_ap t ap.mac then RECOMMENDED_5G_OUTDOOR_POWER
    else RECOMMENDED_5G_INDOOR_POWER
  { ap_mac := ap.mac
    ap_name := ap.display_name
    band := .band_5g
    current_channel := dictGetD ch5g ap.mac 0
    recommended_channel := rec5gl.getD i 36
    current_width := dictGetD w5g ap.mac 40
    recommended_width := RECOMMENDED_5G_WIDTH_DEFAULT
    current_power := (get_radio_config ap "5g").txPowerModeD "auto"
    recommended_power := rec_power
    reason := "5 GHz: non-overlapping, " ++
      (if !has_radar then "DFS preferred" else "non-DFS (radar detected)") ++
      ", " ++ rec_power ++ " power" }

/-- The `for i, ap in enumerate(aps)` loop: one 2.4 GHz row then one 5 GHz
row per AP, in snapshot order. -/
def buildChannelPlan (t : Topology) (ch2g w2g ch5g w5g : List (String × Int))
    (rec2gl rec5gl : List Int) (has_radar : Bool) : Nat → List DeviceInfo → List ChannelPlan
  | _, [] => []
  | i, ap :: rest =>
    mk_plan_2g ch2g w2g rec2gl i ap ::
    mk_plan_5g t ch5g w5g rec5gl has_radar i ap ::
    buildChannelPlan t ch2g w2g ch5g w5g rec2gl rec5gl has_radar (i + 1) rest

/-- Positive confirmation — all observed 2.4 GHz channels valid. -/
def good_24g (ch2g : List (String × Int)) : List Finding :=
  let vals := ch2g.map (fun p => p.2)
  if (vals.filter (fun ch => ch != 0)).all (fun ch => is_valid_24g_channel ch) ∧ ch2g ≠ [] then
    [{ severity := .good
       module := MODULE
       title := "All 2.4 GHz channels are valid (1, 6, or 11)"
       detail := "Good — using only non-overlapping channels on 2.4 GHz."
       recommendation := "" }]
  else []

/-- Positive confirmation — all observed 5 GHz channels mutually unique. -/
def good_unique_5g (ch5g : List (String × Int)) : List Finding :=
  let vals := ch5g.map (fun p => p.2)
  let uniq := if ch5g ≠ [] then decide (vals.dedup.length = vals.length) else false
  if uniq = true ∧ 1 < ch5g.length then
    [{ severity := .good
       module := MODULE
       title := "All 5 GHz channels are unique across APs"
       detail := "Good — no co-channel interference between your APs on 5 GHz."
       recommendation := "" }]
  else []

/-- `rf.analyze(snapshot, topology)`. `none` models an uncaught exception
(the only raising path is check 4's `channels_overlap_5g` call, see C3). -/
def analyze (s : NetworkSnapshot) (topology : Topology) :
    Option (List Finding × List ChannelPlan) :=
  let aps := s.aps
  if aps.isEmpty then some ([noAPsFinding], [])
  else
    let ch2g := ap_channels aps "2g"
    let ch5g := ap_channels aps "5g"
    let w2g := ap_widths aps "2g" 20
    let w5g := ap_widths aps "5g" 40
    let f1 := check_invalid_24g aps ch2g
    let f2 := check_24g_width aps w2g
    let f3 := check_dup_5g aps ch5g
    match check_overlap_5g aps ch5g w5g with
    | none => none
    | some f4 =>
      let f5 := check_utilization aps
      let f6 := check_noise aps
      let nc := neighbor_counts s.rogue_aps
      let total := total_neighbors nc
      let f7 := check_neighbors_24g nc.1 total
      let f8 := check_80mhz aps w5g total
      let f9 := check_24g_power aps
      let has_radar := has_radar_detected s
      let rec5gl := get_recommended_5g_channels (aps.length : Int) has_radar
        (nc.2.map (fun p => p.1))
      let rec2gl := get_recommended_24g_channels (aps.length : Int)
      let plan := buildChannelPlan topology ch2g w2g ch5g w5g rec2gl rec5gl has_radar 0 aps
      let fg := good_24g ch2g ++ good_unique_5g ch5g
      some (f1 ++ f2 ++ f3 ++ f4 ++ f5 ++ f6 ++ f7 ++ f8 ++ f9 ++ fg, plan)

/-! ## C7 — empty AP list -/

/-- C7: on a snapshot with no APs, `analyze` returns exactly the single
warning Finding titled "No APs found" and an empty channel plan. -/
theorem analyze_empty_aps (s : NetworkSnapshot) (t : Topology) (h : s.aps = []) :
    analyze s t = some ([noAPsFinding], []) ∧
    noAPsFinding.severity = Severity.warning ∧
    noAPsFinding.title = "No APs found" := by
  refine ⟨?_, rfl, rfl⟩
  unfold analyze
  rw [h]
  rfl

def emptySnap : NetworkSnapshot := {}

def emptyTopo : Topology := {}

/-- Witness for C7 on a concrete empty snapshot. -/
theorem analyze_empty_aps_witness :
    analyze emptySnap emptyTopo = some ([noAPsFinding], []) :=
  (analyze_empty_aps emptySnap emptyTopo rfl).1

/-! ## C2 — shape of the generated channel plan -/

/-- The 2.4 GHz heuristic output `analyze` uses. -/
def analyzer_rec_2g (s : NetworkSnapshot) : List Int :=
  get_recommended_24g_channels (s.aps.length : Int)

/-- The 5 GHz heuristic output `analyze` uses (radar flag from the event
log, neighbor channels from the 5 GHz rogue buckets). -/
def analyzer_rec_5g (s : NetworkSnapshot) : List Int :=
  get_recommended_5g_channels (s.aps.length : Int) (has_radar_detected s)
    ((neighbor_counts s.rogue_aps).2.map (fun p => p.1))

theorem analyze_plan_eq (s : NetworkSnapshot) (t : Topology)
    (fs : List Finding) (plan : List ChannelPlan)
    (hA : analyze s t = some (fs, plan)) (hne : s.aps ≠ []) :
    plan = buildChannelPlan t (ap_channels s.aps "2g") (ap_widths s.aps "2g" 20)
      (ap_channels s.aps "5g") (ap_widths s.aps "5g" 40)
      (analyzer_rec_2g s) (analyzer_rec_5g s) (has_radar_detected s) 0 s.aps := by
  have hb : s.aps.isEmpty = false := by
    cases hs : s.aps.isEmpty
    · rfl
    · exact absurd (List.isEmpty_iff.mp hs) hne
  unfold analyze at hA
  simp only [hb, Bool.false_eq_true, if_false] at hA
  cases hc : check_overlap_5g s.aps (ap_channels s.aps "5g") (ap_widths s.aps "5g" 40) with
  | none => rw [hc] at hA; cases hA
  | some f4 =>
    rw [hc] at hA
    have hp := congrArg Prod.snd (Option.some.inj hA)
    exact hp.symm

theorem buildChannelPlan_length (t : Topology) (ch2g w2g ch5g w5g : List (String × Int))
    (rec2gl rec5gl : List Int) (hr : Bool) (aps : List DeviceInfo) (i : Nat) :
    (buildChannelPlan t ch2g w2g ch5g w5g rec2gl rec5gl hr i aps).length = 2 * aps.length := by
  induction aps generalizing i with
  | nil => rfl
  | cons a rest ih =>
    simp only [buildChannelPlan, List.length_cons, ih]
    omega

theorem buildChannelPlan_get (t : Topology) (ch2g w2g ch5g w5g : List (String × Int))
    (rec2gl rec5gl : List Int) (hr : Bool) (aps : List DeviceInfo) :
    ∀ (i k : Nat) (ap : DeviceInfo), aps[k]? = some ap →
      (buildChannelPlan t ch2g w2g ch5g w5g rec2gl rec5gl hr i aps)[2 * k]? =
        some (mk_plan_2g ch2g w2g rec2gl (i + k) ap) ∧
      (buildChannelPlan t ch2g w2g ch5g w5g rec2gl rec5gl hr i aps)[2 * k + 1]? =
        some (mk_plan_5g t ch5g w5g rec5gl hr (i + k) ap) := by
  induction aps with
  | nil => intro i k ap h; simp at h
  | cons a rest ih =>
    intro i k ap h
    cases k with
    | zero =>
      have ha : ap = a := by simpa using h.symm
      subst ha
      constructor <;> simp [buildChannelPlan]
    | succ k =>
      have h' : rest[k]? = some ap := by simpa using h
      have hrec := ih (i + 1) k ap h'
      have hi : i + 1 + k = i + (k + 1) := by omega
      rw [hi] at hrec
      have h2 : 2 * (k + 1) = (2 * k + 1) + 1 := by omega
      rw [h2]
      simpa [buildChannelPlan] using hrec

/-- C2 (amended): whenever `analyze` completes without raising on a
non-empty AP list, the channel plan has one 2.4 GHz row followed by one
5 GHz row per AP in snapshot order; the 2.4 GHz row recommends 20 MHz and
"low" power; the 5 GHz row recommends 40 MHz (the default width) and "high"
power exactly when the AP has its placement floor detached ("medium"
otherwise, including when there is no placement); and an AP index beyond a
heuristic list length falls back to channel 1 (2.4 GHz) / 36 (5 GHz). -/
theorem analyze_channel_plan_shape (s : NetworkSnapshot) (t : Topology)
    (fs : List Finding) (plan : List ChannelPlan)
    (hA : analyze s t = some (fs, plan)) (hne : s.aps ≠ []) :
    plan.length = 2 * s.aps.length ∧
    ∀ (k : Nat) (ap : DeviceInfo), s.aps[k]? = some ap →
      ∃ e2 e5, plan[2 * k]? = some e2 ∧ plan[2 * k + 1]? = some e5 ∧
        e2.ap_mac = ap.mac ∧ e2.band = Band.band_2g ∧
        e2.recommended_width = 20 ∧ e2.recommended_power = "low" ∧
        e5.ap_mac = ap.mac ∧ e5.band = Band.band_5g ∧
        e5.recommended_width = 40 ∧
        e5.recommended_power =
          (match dictGet? (placement_map t) ap.mac with
           | some p => if p.floor = FloorLevel.detached then "high" else "medium"
           | none => "medium") ∧
        ((analyzer_rec_2g s).length ≤ k → e2.recommended_channel = 1) ∧
        ((analyzer_rec_5g s).length ≤ k → e5.recommended_channel = 36) := by
  have hplan := analyze_plan_eq s t fs plan hA hne
  constructor
  · rw [hplan, buildChannelPlan_length]
  · intro k ap hk
    obtain ⟨h2, h5⟩ := buildChannelPlan_get t (ap_channels s.aps "2g")
      (ap_widths s.aps "2g" 20) (ap_channels s.aps "5g") (ap_widths s.aps "5g" 40)
      (analyzer_rec_2g s) (analyzer_rec_5g s) (has_radar_detected s) s.aps 0 k ap hk
    rw [Nat.zero_add] at h2 h5
    refine ⟨mk_plan_2g (ap_channels s.aps "2g") (ap_widths s.aps "2g" 20)
        (analyzer_rec_2g s) k ap,
      mk_plan_5g t (ap_channels s.aps "5g") (ap_widths s.aps "5g" 40)
        (analyzer_rec_5g s) (has_radar_detected s) k ap,
      ?_, ?_, rfl, rfl, rfl, rfl, rfl, rfl, rfl, ?_, ?_, ?_⟩
    · rw [hplan]; exact h2
    · rw [hplan]; exact h5
    · show (if is_outdoor_ap t ap.mac then RECOMMENDED_5G_OUTDOOR_POWER
        else RECOMMENDED_5G_INDOOR_POWER) = _
      cases hm : dictGet? (placement_map t) ap.mac with
      | none => simp [is_outdoor_ap, hm, RECOMMENDED_5G_INDOOR_POWER]
      | some p =>
        by_cases hf : p.floor = FloorLevel.detached
        · simp [is_outdoor_ap, hm, hf, RECOMMENDED_5G_OUTDOOR_POWER]
        · simp [is_outdoor_ap, hm, hf, RECOMMENDED_5G_INDOOR_POWER]
    · intro hlen
      exact List.getD_eq_default _ _ hlen
    · intro hlen
      exact List.getD_eq_default _ _ hlen

/-- C2 counterexample input: two APs whose 5 GHz config width (`ht`) is 10,
on distinct in-table channels 36 and 40. -/
def cexAP1 : DeviceInfo :=
  { mac := "a", name := "ap1", type := "uap",
    radio_table := [{ radio := "na", channel := .ofInt 36, ht := 10 }] }

def cexAP2 : DeviceInfo :=
  { mac := "b", name := "ap2", type := "uap",
    radio_table := [{ radio := "na", channel := .ofInt 40, ht := 10 }] }

def cexSnapC2 : NetworkSnapshot := { devices := [cexAP1, cexAP2] }

/-- C2 counterexample: on this non-empty AP list, `analyze` raises
(`ZeroDivisionError` inside the check-4 overlap test, see C3) before the
channel plan is generated, so no channel plan is emitted. -/
theorem analyze_plan_missing_on_bad_width :
    analyze cexSnapC2 emptyTopo = none := by
  decide

def wAP : DeviceInfo := { mac := "m", name := "ap", type := "uap" }

def wSnap : NetworkSnapshot := { devices := [wAP] }

def wPlanList : List ChannelPlan :=
  buildChannelPlan emptyTopo (ap_channels wSnap.aps "2g") (ap_widths wSnap.aps "2g" 20)
    (ap_channels wSnap.aps "5g") (ap_widths wSnap.aps "5g" 40)
    (analyzer_rec_2g wSnap) (analyzer_rec_5g wSnap) (has_radar_detected wSnap) 0 wSnap.aps

/-- Witness for C2's amended theorem on a concrete one-AP snapshot. -/
theorem analyze_channel_plan_shape_witness :
    wPlanList.length = 2 * wSnap.aps.length :=
  (analyze_channel_plan_shape wSnap emptyTopo [] wPlanList (by decide) (by decide)).1

/-! ## Layout engine (`topology/layout.py`)

Float arithmetic is modelled over `ℚ`; `math.sqrt` is an abstract parameter
`sqrtQ`, and the seeded `rng.uniform(0.1, 0.9)` stream is an abstract
parameter `draws` (node `i` is initialised at `(draws (2*i), draws (2*i+1))`,
matching the call order of the comprehension). Every theorem below holds for
every interpretation of both parameters. -/

structure NodePosition where
  mac : String
  name : String
  x : ℚ := 0
  y : ℚ := 0
deriving DecidableEq

structure LayoutResult where
  positions : List NodePosition := []
deriving DecidableEq

/-- `1e-6`. -/
def EPS : ℚ := 1 / 1000000

/-- `min(l)` / `max(l)` of a nonempty Python list. -/
def pyMinQ : List ℚ → ℚ
  | [] => 0
  | a :: r => r.foldl min a

def pyMaxQ : List ℚ → ℚ
  | [] => 0
  | a :: r => r.foldl max a

/-- `dist_lookup[tuple(sorted([ap1, ap2]))] = distance` (last link wins). -/
def layout_dist_lookup (links : List APLink) : List ((String × String) × ℚ) :=
  links.foldl (fun d link =>
    let key := if link.ap1_mac ≤ link.ap2_mac then (link.ap1_mac, link.ap2_mac)
               else (link.ap2_mac, link.ap1_mac)
    dictSet d key link.distance_ft) []

/-- `disp[i] += v` (componentwise, in place). -/
def updAdd2 (disp : List (ℚ × ℚ)) (i : Nat) (v : ℚ × ℚ) : List (ℚ × ℚ) :=
  disp.set i ((disp.getD i (0, 0)).1 + v.1, (disp.getD i (0, 0)).2 + v.2)

/-- Repulsive pass: all pairs `i < j`, force `k²/dist` along the offset. -/
def repPass (sqrtQ : ℚ → ℚ) (k : ℚ) (n : Nat) (pos : List (ℚ × ℚ)) : List (ℚ × ℚ) :=
  ((List.range n).flatMap (fun i => ((List.range n).drop (i + 1)).map (fun j => (i, j)))).foldl
    (fun disp pr =>
      let pa := pos.getD pr.1 (0, 0)
      let pb := pos.getD pr.2 (0, 0)
      let dx := pa.1 - pb.1
      let dy := pa.2 - pb.2
      let dist := sqrtQ (dx * dx + dy * dy)
      let dist := if dist < EPS then EPS else dist
      let force := (k * k) / dist
      let fx := (dx / dist) * force
      let fy := (dy / dist) * force
      updAdd2 (updAdd2 disp pr.1 (fx, fy)) pr.2 (-fx, -fy))
    (List.replicate n (0, 0))

/-- The `for idx, p in enumerate(placements): if p.mac == a ... elif p.mac == b`
index scan (last match wins; `-1` when absent). -/
def findIdxPair (mac_a mac_b : String) : Nat → List APPlacement → Int × Int → Int × Int
  | _, [], acc => acc
  | idx, p :: rest, acc =>
    if p.mac == mac_a then findIdxPair mac_a mac_b (idx + 1) rest ((idx : Int), acc.2)
    else if p.mac == mac_b then findIdxPair mac_a mac_b (idx + 1) rest (acc.1, (idx : Int))
    else findIdxPair mac_a mac_b (idx + 1) rest acc

/-- Spring pass over recorded links: force `(dist - target)/2` toward the
normalized target distance (70 % of the unit extent). -/
def springPass (sqrtQ : ℚ → ℚ) (placements : List APPlacement)
    (dl : List ((String × String) × ℚ)) (pos disp : List (ℚ × ℚ)) : List (ℚ × ℚ) :=
  if dl.isEmpty then disp
  else
    let max_dist := pyMaxQ (dl.map (fun p => p.2))
    let max_dist := if max_dist < EPS then 1 else max_dist
    dl.foldl (fun disp item =>
      let idxs := findIdxPair item.1.1 item.1.2 0 placements (-1, -1)
      if idxs.1 < 0 ∨ idxs.2 < 0 then disp
      else
        let ia := idxs.1.toNat
        let ib := idxs.2.toNat
        let pa := pos.getD ia (0, 0)
        let pb := pos.getD ib (0, 0)
        let dx := pa.1 - pb.1
        let dy := pa.2 - pb.2
        let dist := sqrtQ (dx * dx + dy * dy)
        let dist := if dist < EPS then EPS else dist
        let target_norm := (item.2 / max_dist) * (7 / 10)
        let force := (dist - target_norm) / 2
        let fx := (dx / dist) * force
        let fy := (dy / dist) * force
        updAdd2 (updAdd2 disp ia (-fx, -fy)) ib (fx, fy)) disp

/-- Apply displacements clamped in magnitude to the temperature `t`. -/
def applyDisp (sqrtQ : ℚ → ℚ) (t : ℚ) (pos disp : List (ℚ × ℚ)) : List (ℚ × ℚ) :=
  List.zipWith (fun p d =>
    let mag := sqrtQ (d.1 * d.1 + d.2 * d.2)
    if EPS < mag then (p.1 + d.1 * ((min mag t) / mag), p.2 + d.2 * ((min mag t) / mag))
    else p) pos disp

/-- `t *= 1.0 - (iteration + 1) / (iterations + 1); if t < 1e-6: t = 1e-6`. -/
def coolDown (iterations iteration : Nat) (t : ℚ) : ℚ :=
  let tNew := t * (1 - ((iteration : ℚ) + 1) / ((iterations : ℚ) + 1))
  if tNew < EPS then EPS else tNew

/-- One simulation iteration: repulsion, springs, clamped update, cooling. -/
def layoutStep (sqrtQ : ℚ → ℚ) (k : ℚ) (n : Nat) (placements : List APPlacement)
    (dl : List ((String × String) × ℚ)) (iterations : Nat)
    (st : List (ℚ × ℚ) × ℚ) (iteration : Nat) : List (ℚ × ℚ) × ℚ :=
  let disp := repPass sqrtQ k n st.1
  let disp := springPass sqrtQ placements dl st.1 disp
  (applyDisp sqrtQ st.2 st.1 disp, coolDown iterations iteration st.2)

/-- The simulation part of `compute_layout`'s general case: seeded random
initial positions in the unit square, then `iterations` force iterations. -/
def layoutSim (sqrtQ : ℚ → ℚ) (draws : Nat → ℚ) (placements : List APPlacement)
    (links : List APLink) (iterations : Nat) : List (ℚ × ℚ) :=
  let n := placements.length
  let dl := layout_dist_lookup links
  let pos0 := (List.range n).map (fun i => (draws (2 * i), draws (2 * i + 1)))
  let k := sqrtQ (1 / (n : ℚ))
  ((List.range iterations).foldl
    (layoutStep sqrtQ k n placements dl iterations) (pos0, 1/10)).1

/-- The final min-max normalization into `[0,1]²` with a 5 % margin. -/
def normalizePositions (placements : List APPlacement) (posF : List (ℚ × ℚ)) :
    List NodePosition :=
  let xs := posF.map (fun p => p.1)
  let ys := posF.map (fun p => p.2)
  let min_x := pyMinQ xs
  let max_x := pyMaxQ xs
  let min_y := pyMinQ ys
  let max_y := pyMaxQ ys
  let range_x := if EPS < max_x - min_x then max_x - min_x else 1
  let range_y := if EPS < max_y - min_y then max_y - min_y else 1
  List.zipWith (fun (pl : APPlacement) (pq : ℚ × ℚ) =>
    { mac := pl.mac, name := pl.name,
      x := 1/20 + ((pq.1 - min_x) / range_x) * (9/10),
      y := 1/20 + ((pq.2 - min_y) / range_y) * (9/10) }) placements posF

/-- `compute_layout(topology, iterations=500, seed=42)`. The `n == 0/1/2`
special cases are the first three match arms; the seeded generator is the
abstract `draws` stream. A negative Python iteration count behaves like 0
(empty `range`), so iterations are modelled as `Nat`. -/
def compute_layout (sqrtQ : ℚ → ℚ) (draws : Nat → ℚ) (topology : Topology)
    (iterations : Nat := 500) : LayoutResult :=
  match topology.placements with
  | [] => {}
  | [p] => { positions := [{ mac := p.mac, name := p.name, x := 1/2, y := 1/2 }] }
  | [p, q] =>
    { positions := [{ mac := p.mac, name := p.name, x := 1/5, y := 1/2 },
                    { mac := q.mac, name := q.name, x := 4/5, y := 1/2 }] }
  | _ =>
    let placements := topology.placements
    { positions := normalizePositions placements
        (layoutSim sqrtQ draws placements topology.links iterations) }

/-! ## C5 — layout special cases -/

/-- C5: for every topology (links and distances arbitrary) and every
interpretation of the abstract float parameters: 0 placements give an empty
result, 1 placement gives the fixed center (0.5, 0.5), and 2 placements give
the fixed pair (0.2, 0.5), (0.8, 0.5) in placement order. -/
theorem compute_layout_special_cases (sqrtQ : ℚ → ℚ) (draws : Nat → ℚ)
    (topology : Topology) (iterations : Nat) :
    (topology.placements = [] → compute_layout sqrtQ draws topology iterations = {}) ∧
    (∀ p, topology.placements = [p] →
      compute_layout sqrtQ draws topology iterations =
        { positions := [{ mac := p.mac, name := p.name, x := 1/2, y := 1/2 }] }) ∧
    (∀ p q, topology.placements = [p, q] →
      compute_layout sqrtQ draws topology iterations =
        { positions := [{ mac := p.mac, name := p.name, x := 1/5, y := 1/2 },
                        { mac := q.mac, name := q.name, x := 4/5, y := 1/2 }] }) := by
  refine ⟨?_, ?_, ?_⟩
  · intro h
    unfold compute_layout
    rw [h]
  · intro p h
    unfold compute_layout
    rw [h]
  · intro p q h
    unfold compute_layout
    rw [h]

def wTopo1 : Topology :=
  { placements := [{ mac := "m", name := "n" }],
    links := [{ ap1_mac := "m", ap2_mac := "m", distance_ft := 3 }] }

/-- Witness for C5 on a concrete one-placement topology (with a link). -/
theorem compute_layout_special_cases_witness :
    compute_layout (fun _ => 0) (fun _ => 0) wTopo1 500 =
      { positions := [{ mac := "m", name := "n", x := 1/2, y := 1/2 }] } :=
  (compute_layout_special_cases (fun _ => 0) (fun _ => 0) wTopo1 500).2.1
    { mac := "m", name := "n" } rfl

/-! ## C8 — the temperature schedule -/

/-- The temperature bound used at iteration `i` of `N`: `0.1` initially,
then multiplied by `1 - (i+1)/(N+1)` after each iteration, floored at
`1e-6` — exactly the `t` carried by `compute_layout`'s loop via `coolDown`. -/
def tempSeq (iterations : Nat) : Nat → ℚ
  | 0 => 1 / 10
  | i + 1 => coolDown iterations i (tempSeq iterations i)

theorem tempSeq_ge_eps (N : Nat) : ∀ i, EPS ≤ tempSeq N i
  | 0 => by norm_num [tempSeq, EPS]
  | i + 1 => by
    show EPS ≤ coolDown N i (tempSeq N i)
    unfold coolDown
    dsimp only
    split
    · exact le_refl _
    · rename_i h
      exact le_of_not_lt h

/-- C8 counterexample: at iteration 1 of 2 the code's clamp bound is
`0.1 * (1 - 1/3) = 1/15`, not the claimed `0.1 * (1 - 1/2)`. -/
theorem temperature_not_linear :
    tempSeq 2 1 = 1 / 15 ∧ ((1 : ℚ) / 15) ≠ (1 / 10) * (1 - 1 / 2) := by
  constructor
  · show coolDown 2 0 (1 / 10) = 1 / 15
    unfold coolDown
    rw [if_neg]
    · norm_num
    · norm_num [EPS]
  · norm_num

/-- C8 (amended): the clamp bound starts at 0.1 and decays multiplicatively —
after iteration `i` of `N` it is multiplied by `1 - (i+1)/(N+1)` and floored
at `1e-6` — so it is non-increasing and strictly positive at every
iteration (but it is not the linear `0.1 * (1 - i/N)`). -/
theorem temperature_decay_schedule (N i : Nat) :
    tempSeq N 0 = 1 / 10 ∧
    0 < tempSeq N i ∧
    tempSeq N (i + 1) = max EPS (tempSeq N i * (1 - ((i : ℚ) + 1) / ((N : ℚ) + 1))) ∧
    tempSeq N (i + 1) ≤ tempSeq N i := by
  have heps : (0 : ℚ) < EPS := by norm_num [EPS]
  have hpos : 0 < tempSeq N i := lt_of_lt_of_le heps (tempSeq_ge_eps N i)
  have hfac : tempSeq N i * (1 - ((i : ℚ) + 1) / ((N : ℚ) + 1)) ≤ tempSeq N i := by
    have hq : 0 ≤ ((i : ℚ) + 1) / ((N : ℚ) + 1) := by positivity
    nlinarith [hpos]
  refine ⟨rfl, hpos, ?_, ?_⟩
  · show coolDown N i (tempSeq N i) = _
    unfold coolDown
    dsimp only
    split
    · rename_i h
      exact (max_eq_left (le_of_lt h)).symm
    · rename_i h
      exact (max_eq_right (le_of_not_lt h)).symm
  · show coolDown N i (tempSeq N i) ≤ tempSeq N i
    unfold coolDown
    dsimp only
    split
    · exact tempSeq_ge_eps N i
    · exact hfac

/-! ## C10 — structure and bounds of the layout output -/

theorem foldl_pres {α β : Type _} {P : β → Prop} {f : β → α → β}
    (hf : ∀ b a, P b → P (f b a)) : ∀ (l : List α) (b : β), P b → P (l.foldl f b)
  | [], _, hb => hb
  | a :: l, b, hb => foldl_pres hf l (f b a) (hf b a hb)

theorem updAdd2_length (d : List (ℚ × ℚ)) (i : Nat) (v : ℚ × ℚ) :
    (updAdd2 d i v).length = d.length := by
  simp [updAdd2]

theorem repPass_length (sqrtQ : ℚ → ℚ) (k : ℚ) (n : Nat) (pos : List (ℚ × ℚ)) :
    (repPass sqrtQ k n pos).length = n := by
  unfold repPass
  refine foldl_pres (P := fun d : List (ℚ × ℚ) => d.length = n) ?_ _ _ (by simp)
  intro d a hd
  dsimp only
  rw [updAdd2_length, updAdd2_length]
  exact hd

theorem springPass_length (sqrtQ : ℚ → ℚ) (pls : List APPlacement)
    (dl : List ((String × String) × ℚ)) (pos disp : List (ℚ × ℚ)) :
    (springPass sqrtQ pls dl pos disp).length = disp.length := by
  unfold springPass
  split
  · rfl
  · dsimp only
    refine foldl_pres (P := fun d : List (ℚ × ℚ) => d.length = disp.length) ?_ _ _ rfl
    intro d a hd
    dsimp only
    split
    · exact hd
    · rw [updAdd2_length, updAdd2_length]
      exact hd

theorem applyDisp_length (sqrtQ : ℚ → ℚ) (t : ℚ) (pos disp : List (ℚ × ℚ)) :
    (applyDisp sqrtQ t pos disp).length = min pos.length disp.length := by
  simp [applyDisp]

theorem layoutSim_length (sqrtQ : ℚ → ℚ) (draws : Nat → ℚ) (pls : List APPlacement)
    (links : List APLink) (iterations : Nat) :
    (layoutSim sqrtQ draws pls links iterations).length = pls.length := by
  unfold layoutSim
  dsimp only
  refine foldl_pres (P := fun (st : List (ℚ × ℚ) × ℚ) => st.1.length = pls.length)
    ?_ _ _ (by simp)
  intro st a hst
  unfold layoutStep
  dsimp only
  rw [applyDisp_length, springPass_length, repPass_length, hst]
  exact Nat.min_self _

theorem foldl_min_le_init (r : List ℚ) : ∀ acc : ℚ, r.foldl min acc ≤ acc := by
  induction r with
  | nil => intro acc; exact le_refl _
  | cons a r ih => intro acc; exact le_trans (ih (min acc a)) (min_le_left _ _)

theorem foldl_min_le_mem (r : List ℚ) : ∀ (acc x : ℚ), x ∈ r → r.foldl min acc ≤ x := by
  induction r with
  | nil => intro acc x hx; simp at hx
  | cons a r ih =>
    intro acc x hx
    rcases List.mem_cons.1 hx with rfl | hx
    · exact le_trans (foldl_min_le_init r _) (min_le_right _ _)
    · exact ih _ x hx

theorem pyMinQ_le (l : List ℚ) (x : ℚ) (hx : x ∈ l) : pyMinQ l ≤ x := by
  cases l with
  | nil => simp at hx
  | cons a r =>
    rcases List.mem_cons.1 hx with rfl | hx
    · exact foldl_min_le_init r x
    · exact foldl_min_le_mem r a x hx

theorem init_le_foldl_max (r : List ℚ) : ∀ acc : ℚ, acc ≤ r.foldl max acc := by
  induction r with
  | nil => intro acc; exact le_refl _
  | cons a r ih => intro acc; exact le_trans (le_max_left _ _) (ih (max acc a))

theorem mem_le_foldl_max (r : List ℚ) : ∀ (acc x : ℚ), x ∈ r → x ≤ r.foldl max acc := by
  induction r with
  | nil => intro acc x hx; simp at hx
  | cons a r ih =>
    intro acc x hx
    rcases List.mem_cons.1 hx with rfl | hx
    · exact le_trans (le_max_right _ _) (init_le_foldl_max r _)
    · exact ih _ x hx

theorem le_pyMaxQ (l : List ℚ) (x : ℚ) (hx : x ∈ l) : x ≤ pyMaxQ l := by
  cases l with
  | nil => simp at hx
  | cons a r =>
    rcases List.mem_cons.1 hx with rfl | hx
    · exact init_le_foldl_max r x
    · exact mem_le_foldl_max r a x hx

theorem exists_of_mem_zipWith {α β γ : Type _} {f : α → β → γ} :
    ∀ {l1 : List α} {l2 : List β} {c : γ}, c ∈ List.zipWith f l1 l2 →
      ∃ a b, a ∈ l1 ∧ b ∈ l2 ∧ c = f a b := by
  intro l1
  induction l1 with
  | nil => intro l2 c hc; simp at hc
  | cons a l1 ih =>
    intro l2 c hc
    cases l2 with
    | nil => simp at hc
    | cons b l2 =>
      rcases List.mem_cons.1 hc with rfl | hc
      · exact ⟨a, b, by simp, by simp, rfl⟩
      · obtain ⟨a', b', ha, hb, hc'⟩ := ih hc
        exact ⟨a', b', List.mem_cons_of_mem _ ha, List.mem_cons_of_mem _ hb, hc'⟩

theorem zipWith_map_left {α β γ δ : Type _} {f : α → β → γ} {g : γ → δ} {h : α → δ}
    (hgf : ∀ a b, g (f a b) = h a) :
    ∀ (l1 : List α) (l2 : List β), l1.length = l2.length →
      (List.zipWith f l1 l2).map g = l1.map h := by
  intro l1
  induction l1 with
  | nil => intro l2 _; simp
  | cons a l1 ih =>
    intro l2 hlen
    cases l2 with
    | nil => simp at hlen
    | cons b l2 =>
      simp only [List.zipWith_cons_cons, List.map_cons, hgf]
      rw [ih l2 (by simpa using hlen)]

theorem norm_coord_bounds (vals : List ℚ) (v : ℚ) (hv : v ∈ vals) :
    1/20 ≤ 1/20 + ((v - pyMinQ vals) /
      (if EPS < pyMaxQ vals - pyMinQ vals then pyMaxQ vals - pyMinQ vals else 1)) * (9/10) ∧
    1/20 + ((v - pyMinQ vals) /
      (if EPS < pyMaxQ vals - pyMinQ vals then pyMaxQ vals - pyMinQ vals else 1)) * (9/10)
      ≤ 19/20 := by
  have h1 : pyMinQ vals ≤ v := pyMinQ_le vals v hv
  have h2 : v ≤ pyMaxQ vals := le_pyMaxQ vals v hv
  have heps : EPS = 1/1000000 := rfl
  by_cases hr : EPS < pyMaxQ vals - pyMinQ vals
  · rw [if_pos hr]
    have hpos : (0 : ℚ) < pyMaxQ vals - pyMinQ vals := by
      rw [heps] at hr; linarith
    have hq0 : 0 ≤ (v - pyMinQ vals) / (pyMaxQ vals - pyMinQ vals) :=
      div_nonneg (by linarith) (le_of_lt hpos)
    have hq1 : (v - pyMinQ vals) / (pyMaxQ vals - pyMinQ vals) ≤ 1 :=
      (div_le_one hpos).2 (by linarith)
    constructor <;> nlinarith
  · rw [if_neg hr]
    have hle : pyMaxQ vals - pyMinQ vals ≤ EPS := le_of_not_lt hr
    rw [heps] at hle
    rw [div_one]
    constructor <;> nlinarith

theorem normalizePositions_bounds (pls : List APPlacement) (posF : List (ℚ × ℚ)) :
    ∀ np ∈ normalizePositions pls posF,
      1/20 ≤ np.x ∧ np.x ≤ 19/20 ∧ 1/20 ≤ np.y ∧ np.y ≤ 19/20 := by
  intro np hnp
  unfold normalizePositions at hnp
  dsimp only at hnp
  obtain ⟨pl, pq, hpl, hpq, rfl⟩ := exists_of_mem_zipWith hnp
  have hx := norm_coord_bounds (posF.map (fun p => p.1)) pq.1 (List.mem_map_of_mem _ hpq)
  have hy := norm_coord_bounds (posF.map (fun p => p.2)) pq.2 (List.mem_map_of_mem _ hpq)
  exact ⟨hx.1, hx.2, hy.1, hy.2⟩

theorem normalizePositions_map (pls : List APPlacement) (posF : List (ℚ × ℚ))
    (hlen : pls.length = posF.length) :
    (normalizePositions pls posF).map (fun p => p.mac) = pls.map (fun p => p.mac) ∧
    (normalizePositions pls posF).map (fun p => p.name) = pls.map (fun p => p.name) := by
  unfold normalizePositions
  dsimp only
  constructor
  · refine zipWith_map_left ?_ pls posF hlen
    intro a b
    rfl
  · refine zipWith_map_left ?_ pls posF hlen
    intro a b
    rfl

theorem compute_layout_general (sqrtQ : ℚ → ℚ) (draws : Nat → ℚ) (topology : Topology)
    (iterations : Nat) (p q r : APPlacement) (rest : List APPlacement)
    (hp : topology.placements = p :: q :: r :: rest) :
    compute_layout sqrtQ draws topology iterations =
      { positions := normalizePositions topology.placements
          (layoutSim sqrtQ draws topology.placements topology.links iterations) } := by
  unfold compute_layout
  rw [hp]

/-- C10: the layout output has exactly one position per placement, in
placement order with matching MAC and name, and every coordinate lies
within `[0.05, 0.95]` — for every topology, iteration count, and
interpretation of the abstract float parameters. -/
theorem compute_layout_positions_invariant (sqrtQ : ℚ → ℚ) (draws : Nat → ℚ)
    (topology : Topology) (iterations : Nat) :
    ((compute_layout sqrtQ draws topology iterations).positions.map (fun p => p.mac) =
      topology.placements.map (fun p => p.mac)) ∧
    ((compute_layout sqrtQ draws topology iterations).positions.map (fun p => p.name) =
      topology.placements.map (fun p => p.name)) ∧
    ∀ np ∈ (compute_layout sqrtQ draws topology iterations).positions,
      1/20 ≤ np.x ∧ np.x ≤ 19/20 ∧ 1/20 ≤ np.y ∧ np.y ≤ 19/20 := by
  rcases hp : topology.placements with _ | ⟨p, _ | ⟨q, _ | ⟨r, rest⟩⟩⟩
  · have h : compute_layout sqrtQ draws topology iterations = {} := by
      unfold compute_layout
      rw [hp]
    rw [h]
    refine ⟨rfl, rfl, ?_⟩
    intro np hnp
    simp at hnp
  · have h : compute_layout sqrtQ draws topology iterations =
        { positions := [{ mac := p.mac, name := p.name, x := 1/2, y := 1/2 }] } := by
      unfold compute_layout
      rw [hp]
    rw [h]
    refine ⟨rfl, rfl, ?_⟩
    intro np hnp
    rcases List.mem_singleton.1 hnp with rfl
    norm_num
  · have h : compute_layout sqrtQ draws topology iterations =
        { positions := [{ mac := p.mac, name := p.name, x := 1/5, y := 1/2 },
                        { mac := q.mac, name := q.name, x := 4/5, y := 1/2 }] } := by
      unfold compute_layout
      rw [hp]
    rw [h]
    refine ⟨rfl, rfl, ?_⟩
    intro np hnp
    rcases List.mem_cons.1 hnp with rfl | hnp
    · norm_num
    · rcases List.mem_singleton.1 hnp with rfl
      norm_num
  · rw [compute_layout_general sqrtQ draws topology iterations p q r rest hp, hp]
    have hlen : (p :: q :: r :: rest).length =
        (layoutSim sqrtQ draws (p :: q :: r :: rest) topology.links iterations).length :=
      (layoutSim_length sqrtQ draws (p :: q :: r :: rest) topology.links iterations).symm
    exact ⟨(normalizePositions_map _ _ hlen).1, (normalizePositions_map _ _ hlen).2,
      normalizePositions_bounds _ _⟩

/-- Witness for C10 on a concrete topology. -/
theorem compute_layout_positions_invariant_witness :
    ((compute_layout (fun _ => 0) (fun _ => 0) wTopo1 5).positions.map (fun p => p.mac) =
      wTopo1.placements.map (fun p => p.mac)) ∧
    (1/20 : ℚ) ≤ ({ mac := "m", name := "n", x := 1/2, y := 1/2 } : NodePosition).x :=
  ⟨(compute_layout_positions_invariant (fun _ => 0) (fun _ => 0) wTopo1 5).1,
    ((compute_layout_positions_invariant (fun _ => 0) (fun _ => 0) wTopo1 5).2.2
      { mac := "m", name := "n", x := 1/2, y := 1/2 }
      (by
        have h : (compute_layout (fun _ => (0 : ℚ)) (fun _ => (0 : ℚ)) wTopo1 5).positions =
            [{ mac := "m", name := "n", x := 1/2, y := 1/2 }] := rfl
        rw [h]
        exact List.mem_singleton.2 rfl)).1⟩
